import Mathlib

/-!
Shallow embedding of the chat client front-end (frame dispatcher, error
classifier, cost ledger, message chips, audio playback controls, time
formatter and the chunked base64 decoder) together with theorems checking
the natural-language specification against this code.

Sources embedded:
- WebSocketHandler (handleWebSocketMessage, handleErrorMessage,
  updateCostDisplay) from the websocket handler module;
- MessageComponent (appendMessage, appendError, createChipsContainer,
  the play-button, progress-bar and audio event listeners);
- AudioUtils.formatTime and AudioUtils.base64ToBlob;
- ChatConstants.
-/

namespace ChatClient

/-- Whitespace recognised by the embedding of String.prototype.trim
(the ASCII whitespace characters; the claims only exercise the space). -/
def jsIsWhitespace (c : Char) : Bool :=
  c = ' ' || c = '\t' || c = '\n' || c = '\r' || c = '\x0b' || c = '\x0c'

/-- Embedding of JS String.prototype.trim. -/
def jsTrim (s : String) : String :=
  String.mk (((s.toList.dropWhile jsIsWhitespace).reverse.dropWhile jsIsWhitespace).reverse)

/-- Embedding of JS String.prototype.substring(n): drop the first n characters
(clamped at the end of the string). -/
def jsSubstringFrom (s : String) (n : Nat) : String :=
  String.mk (s.toList.drop n)

/-- Does the character list start with the given pattern list. -/
def startsWithL : List Char → List Char → Bool
  | _, [] => true
  | [], _ :: _ => false
  | c :: cs, p :: ps => c == p && startsWithL cs ps

/-- Embedding of JS String.prototype.startsWith. -/
def jsStartsWith (s pre : String) : Bool :=
  startsWithL s.toList pre.toList

/-- Substring containment on character lists (case-sensitive, exact). -/
def containsL : List Char → List Char → Bool
  | [], pat => startsWithL [] pat
  | c :: cs, pat => startsWithL (c :: cs) pat || containsL cs pat

/-- Embedding of JS String.prototype.includes (case-sensitive substring test). -/
def jsIncludes (s pat : String) : Bool :=
  containsL s.toList pat.toList

namespace ChatConstants

def DEFAULT_BUDGET : ℚ := 25

def LOW_BUDGET_THRESHOLD : ℚ := 5

def AUDIO_CHUNK_SIZE : Nat := 512

def PROMPT_TOO_LONG : String := "Prompt Too Long"

def BUDGET_EXCEEDED : String := "Budget Exceeded"

def GENERIC : String := "Error"

end ChatConstants

/-- The error-classification logic of WebSocketHandler.handleErrorMessage:
first-match-wins, case-sensitive substring test in a fixed order. -/
def classify (errorMessage : String) : String :=
  if jsIncludes errorMessage "Prompt must be length" then ChatConstants.PROMPT_TOO_LONG
  else if jsIncludes errorMessage "budget exceeded" then ChatConstants.BUDGET_EXCEEDED
  else ChatConstants.GENERIC

/-- A JS number as used by the audio code: either NaN (duration not yet
known) or a finite numeric value, modelled as a rational. -/
inductive JsNum where
  | nan : JsNum
  | num : ℚ → JsNum

/-- Embedding of JS String.prototype.padStart with a single pad character. -/
def padStart (s : String) (targetLength : Nat) (pad : Char) : String :=
  String.mk (List.replicate (targetLength - s.length) pad) ++ s

/-- Embedding of Math.floor on finite numbers. -/
def mathFloor (q : ℚ) : ℤ :=
  ⌊q⌋

/-- Truncation toward zero, as used by the JS remainder operator. -/
def ratTrunc (q : ℚ) : ℤ :=
  if q < 0 then ⌈q⌉ else ⌊q⌋

/-- Embedding of the JS remainder operator a % b on finite numbers:
the remainder takes the sign of the dividend. -/
def jsRem (a b : ℚ) : ℚ :=
  a - b * (ratTrunc (a / b) : ℚ)

/-- AudioUtils.formatTime: NaN renders as 0:00, otherwise minutes are
Math.floor(seconds / 60), the remainder seconds are floored and the seconds
component is zero-padded to width 2. -/
def formatTime : JsNum → String
  | JsNum.nan => "0:00"
  | JsNum.num seconds =>
    toString (mathFloor (seconds / 60)) ++ ":" ++
      padStart (toString (mathFloor (jsRem seconds 60))) 2 '0'

/-- Decimal rendering of a natural number scaled by 10 ^ digits,
used by the toFixed embedding. -/
def toFixedNat (n : Nat) (digits : Nat) : String :=
  if digits = 0 then toString n
  else toString (n / 10 ^ digits) ++ "." ++ padStart (toString (n % 10 ^ digits)) digits '0'

/-- Embedding of Number.prototype.toFixed for finite values (a platform
builtin used by the source): round to the given number of decimal digits,
half away from zero, and render with exactly that many digits. Exact on the
decimal values the claims exercise. -/
def toFixed (x : ℚ) (digits : Nat) : String :=
  if x < 0 then "-" ++ toFixedNat (⌊-x * (10 : ℚ) ^ digits + 1 / 2⌋).toNat digits
  else toFixedNat (⌊x * (10 : ℚ) ^ digits + 1 / 2⌋).toNat digits

/-- The cost_info field of an inbound frame; every field is optional. -/
structure CostInfo where
  request_cost : Option ℚ := none
  total_cost : Option ℚ := none
  remaining_budget : Option ℚ := none
deriving DecidableEq

/-- The persistent ledger display: the total-cost text, the
remaining-budget text, and whether the cost-warning class is present on
the remaining-budget field. -/
structure Ledger where
  totalCostText : String
  remainingBudgetText : String
  costWarning : Bool
deriving DecidableEq

/-- WebSocketHandler.updateCostDisplay: each ledger field is rewritten only
when the corresponding cost_info field is a number; the warning class is
added exactly when remaining_budget is below the low-budget threshold and
removed otherwise. -/
def updateCostDisplay (ledger : Ledger) (costInfo : CostInfo) : Ledger :=
  let ledger1 :=
    match costInfo.total_cost with
    | some t => { ledger with totalCostText := toFixed t 3 }
    | none => ledger
  match costInfo.remaining_budget with
  | some r =>
    { ledger1 with
        remainingBudgetText := toFixed r 2,
        costWarning := decide (r < ChatConstants.LOW_BUDGET_THRESHOLD) }
  | none => ledger1

/-- One tool call inside an agent flow. -/
structure ToolCall where
  name : String
  parameters : List (String × String)
  result : Option String := none
deriving DecidableEq

/-- The agent_flow field of an inbound frame. -/
structure AgentFlow where
  tool_calls : Option (List ToolCall) := none
  internal_messages : Option (List String) := none
deriving DecidableEq

/-- JS truthiness of an optionally-present number: undefined and 0 are
falsy, every other (finite) number is truthy. -/
def jsTruthyNum : Option ℚ → Bool
  | none => false
  | some c => c != 0

/-- A chip attached to a bot message: a cost chip carrying request_cost,
or the collapsible agent-flow chip. -/
inductive Chip where
  | costChip : ℚ → Chip
  | agentFlowChip : AgentFlow → Chip
deriving DecidableEq

/-- Is this chip a cost chip. -/
def isCostChip : Chip → Bool
  | Chip.costChip _ => true
  | Chip.agentFlowChip _ => false

/-- Is this chip an agent-flow chip. -/
def isAgentFlowChip : Chip → Bool
  | Chip.costChip _ => false
  | Chip.agentFlowChip _ => true

/-- MessageComponent._createChipsContainer: a cost chip is added when
costInfo?.request_cost is truthy, and an agent-flow chip when agentFlow is
present. -/
def createChipsContainer (costInfo : Option CostInfo) (agentFlow : Option AgentFlow) :
    List Chip :=
  (match costInfo with
   | some ci =>
     match ci.request_cost with
     | some c => if c != 0 then [Chip.costChip c] else []
     | none => []
   | none => []) ++
  (match agentFlow with
   | some af => [Chip.agentFlowChip af]
   | none => [])

/-- JS truthiness of an optionally-present string: undefined and the empty
string are falsy. -/
def jsTruthyStr : Option String → Bool
  | none => false
  | some s => s != ""

/-- A rendered node appended to the conversation log. -/
inductive Node where
  | userMessage : String → Node
  | botMessage : String → List Chip → Node
  | errorCard : String → String → Node
  | imageWidget : String → Node
  | audioWidget : String → Node
  | researchBlock : String → Node
deriving DecidableEq

/-- An inbound frame after JSON parsing; every field is optional and
independently present. -/
structure Frame where
  message : Option String := none
  cost_info : Option CostInfo := none
  agent_flow : Option AgentFlow := none
  base64_image : Option String := none
  base64_audio : Option String := none
  research_result : Option String := none

/-- The dispatcher-visible display state: the append-only conversation log
and the persistent cost ledger. -/
structure DispState where
  log : List Node
  ledger : Ledger
deriving DecidableEq

/-- Append one rendered node to the conversation log. -/
def appendNode (st : DispState) (n : Node) : DispState :=
  { st with log := st.log ++ [n] }

/-- WebSocketHandler.handleErrorMessage: drop the first 7 characters of the
message (substring(7)), trim, classify, and append one error card. -/
def handleErrorMessage (st : DispState) (message : String) : DispState :=
  let errorMessage := jsTrim (jsSubstringFrom message 7)
  appendNode st (Node.errorCard (classify errorMessage) errorMessage)

/-- WebSocketHandler.handleWebSocketMessage: update the ledger when
cost_info is present; if the message starts with the Error: prefix, render
the error card and return (no further field of this frame is processed);
otherwise append the bot message (when the message is truthy) and then the
image, audio and research widgets for each truthy field in that order. -/
def handleWebSocketMessage (st : DispState) (data : Frame) : DispState :=
  let st0 :=
    match data.cost_info with
    | some ci => { st with ledger := updateCostDisplay st.ledger ci }
    | none => st
  if (match data.message with
      | some m => jsStartsWith m "Error:"
      | none => false) then
    handleErrorMessage st0 (data.message.getD "")
  else
    let st1 :=
      match data.message with
      | some m =>
        if m != "" then
          appendNode st0 (Node.botMessage m (createChipsContainer data.cost_info data.agent_flow))
        else st0
      | none => st0
    let st2 :=
      match data.base64_image with
      | some img => if img != "" then appendNode st1 (Node.imageWidget img) else st1
      | none => st1
    let st3 :=
      match data.base64_audio with
      | some au => if au != "" then appendNode st2 (Node.audioWidget au) else st2
      | none => st2
    match data.research_result with
    | some r => if r != "" then appendNode st3 (Node.researchBlock r) else st3
    | none => st3

/-- An initial ledger display (total 0.000, full default budget, no
warning). -/
def initLedger : Ledger :=
  { totalCostText := "0.000", remainingBudgetText := "25.00", costWarning := false }

/-- An empty conversation with the initial ledger. -/
def initDispState : DispState :=
  { log := [], ledger := initLedger }

/- Base64: the platform atob builtin modelled from RFC 4648, and the
chunked decoder of AudioUtils.base64ToBlob. -/

/-- The base64 alphabet in index order. -/
def b64Alphabet : List Char :=
  "ABCDEFGHIJKLMNOPQRSTUVWXYZabcdefghijklmnopqrstuvwxyz0123456789+/".toList

/-- The base64 character for a 6-bit value. -/
def b64Char (n : Nat) : Char :=
  b64Alphabet.getD n 'A'

/-- The 6-bit value of a base64 character. -/
def b64Val (c : Char) : Nat :=
  b64Alphabet.indexOf c

/-- Standard base64 encoding of a byte sequence (the inverse direction of
the platform atob builtin; bytes are processed three at a time, with =
padding for a final group of one or two bytes). -/
def encodeB64 : List Nat → List Char
  | [] => []
  | [a] => [b64Char (a / 4), b64Char (a % 4 * 16), '=', '=']
  | [a, b] => [b64Char (a / 4), b64Char (a % 4 * 16 + b / 16), b64Char (b % 16 * 4), '=']
  | a :: b :: c :: rest =>
    b64Char (a / 4) :: b64Char (a % 4 * 16 + b / 16) ::
      b64Char (b % 16 * 4 + c / 64) :: b64Char (c % 64) :: encodeB64 rest

/-- Base64 decoding to a byte sequence, four characters at a time, honouring
= padding (the byte-level content of the platform atob builtin). -/
def decodeB64 : List Char → List Nat
  | c1 :: c2 :: c3 :: c4 :: rest =>
    if c3 = '=' then [b64Val c1 * 4 + b64Val c2 / 16]
    else if c4 = '=' then
      [b64Val c1 * 4 + b64Val c2 / 16, b64Val c2 % 16 * 16 + b64Val c3 / 4]
    else
      (b64Val c1 * 4 + b64Val c2 / 16) :: (b64Val c2 % 16 * 16 + b64Val c3 / 4) ::
        (b64Val c3 % 4 * 64 + b64Val c4) :: decodeB64 rest
  | _ => []

/-- The platform atob builtin, modelled from RFC 4648: decode base64 text to
a binary string, one character per byte. -/
def atobJS (base64 : List Char) : List Char :=
  (decodeB64 base64).map Char.ofNat

/-- The chunking loop of AudioUtils.base64ToBlob: slice the decoded binary
string into fixed 512-character chunks, map every character of a chunk to
its code point, and collect the per-chunk byte arrays in order. -/
def blobChunks (byteCharacters : List Char) : List (List Nat) :=
  if hbc : byteCharacters = [] then []
  else
    (byteCharacters.take ChatConstants.AUDIO_CHUNK_SIZE).map Char.toNat ::
      blobChunks (byteCharacters.drop ChatConstants.AUDIO_CHUNK_SIZE)
termination_by byteCharacters.length
decreasing_by
  have h2 : 0 < byteCharacters.length := List.length_pos.mpr hbc
  simp [ChatConstants.AUDIO_CHUNK_SIZE]
  omega

/-- AudioUtils.base64ToBlob: decode the base64 text with atob, process the
resulting binary string in 512-character slices, and concatenate the
per-slice byte arrays into the final payload (the Blob content). -/
def base64ToBlob (base64 : List Char) : List Nat :=
  (blobChunks (atobJS base64)).flatten

/- Audio playback: one record per audio widget plus the process-wide
currentAudio reference of MessageComponent. -/

/-- One audio element together with its play button: whether the element is
paused, its current time, and whether the button shows the Pause affordance
and the playing class. -/
structure AudioElem where
  paused : Bool
  currentTime : ℚ
  buttonPlaying : Bool
deriving DecidableEq

/-- A freshly created audio widget: paused at time 0, button showing Play. -/
def initAudioElem : AudioElem :=
  { paused := true, currentTime := 0, buttonPlaying := false }

/-- The audio-relevant state of a conversation with n audio widgets: the
per-widget elements and the MessageComponent.currentAudio reference. -/
structure AudioSys (n : Nat) where
  widgets : Fin n → AudioElem
  currentAudio : Option (Fin n)

/-- All widgets fresh, no active audio. -/
def initAudioSys (n : Nat) : AudioSys n :=
  { widgets := fun _ => initAudioElem, currentAudio := none }

/-- Apply an update to one widget, leaving the others unchanged. -/
def updateWidget {n : Nat} (sys : AudioSys n) (i : Fin n) (f : AudioElem → AudioElem) :
    AudioSys n :=
  { sys with widgets := fun k => if k = i then f (sys.widgets k) else sys.widgets k }

/-- The play/pause branch of the play-button click listener: if the element
is paused, MessageComponent._playAudio starts it, shows the Pause
affordance and makes it the currentAudio; otherwise
MessageComponent._pauseAudio pauses it in place and resets the button
(currentAudio is not changed). -/
def playPauseBranch {n : Nat} (sys : AudioSys n) (i : Fin n) : AudioSys n × Bool :=
  if (sys.widgets i).paused then
    ({ updateWidget sys i (fun w => { w with paused := false, buttonPlaying := true }) with
        currentAudio := some i }, false)
  else
    (updateWidget sys i (fun w => { w with paused := true, buttonPlaying := false }), false)

/-- The play-button click listener of MessageComponent._createPlayButton.
When currentAudio is a different widget, MessageComponent._resetCurrentAudio
pauses it and sets its currentTime to 0; its next statement reads
currentAudio.parentElement, which is null because createAudioPlayer never
appends the audio element to any parent, so querySelector on null throws a
TypeError: the handler aborts (the Boolean result records the throw) and
the clicked widget is never toggled. Otherwise the play/pause branch runs. -/
def clickPlay {n : Nat} (sys : AudioSys n) (i : Fin n) : AudioSys n × Bool :=
  match sys.currentAudio with
  | some j =>
    if j ≠ i then
      (updateWidget sys j (fun w => { w with paused := true, currentTime := 0 }), true)
    else
      playPauseBranch sys i
  | none => playPauseBranch sys i

/-- Run a sequence of play-button clicks from a starting state; a thrown
TypeError aborts only that click handler, so the sequence continues. -/
def runClicks {n : Nat} (sys : AudioSys n) : List (Fin n) → AudioSys n
  | [] => sys
  | i :: rest => runClicks (clickPlay sys i).1 rest

/-- The progress-track click listener of
MessageComponent._createProgressContainer with the click position already
expressed as the fraction relativeX of the track width: it assigns
relativeX times the duration to currentTime. The currentTime property is a
WebIDL double, so when the duration is NaN the assigned product is NaN, the
setter throws a TypeError and the stored currentTime is left unchanged;
the Boolean result records the throw. -/
def seekClick (duration : JsNum) (relativeX : ℚ) (currentTime : ℚ) : ℚ × Bool :=
  match duration with
  | JsNum.nan => (currentTime, true)
  | JsNum.num d => (relativeX * d, false)

/- Helper lemmas. -/

/-- Decoding table inverts the encoding table on 6-bit values. -/
theorem b64Val_b64Char : ∀ n < 64, b64Val (b64Char n) = n := by decide

/-- No 6-bit value encodes to the padding character. -/
theorem b64Char_ne_pad : ∀ n < 64, b64Char n ≠ '=' := by decide

set_option maxRecDepth 4000 in
/-- Code points below 256 survive the Char round trip. -/
theorem char_toNat_ofNat : ∀ n < 256, (Char.ofNat n).toNat = n := by decide

/-- The byte-level base64 decoder inverts the encoder on byte sequences. -/
theorem decodeB64_encodeB64 (x : List Nat) (hx : ∀ b ∈ x, b < 256) :
    decodeB64 (encodeB64 x) = x := by
  induction x using encodeB64.induct with
  | case1 => rfl
  | case2 a =>
    have ha : a < 256 := hx a (by simp)
    simp only [encodeB64, decodeB64, if_true]
    rw [b64Val_b64Char _ (by omega : a / 4 < 64), b64Val_b64Char _ (by omega : a % 4 * 16 < 64)]
    simp only [List.cons.injEq, and_true]
    omega
  | case3 a b =>
    have ha : a < 256 := hx a (by simp)
    have hb : b < 256 := hx b (by simp)
    simp only [encodeB64, decodeB64, if_true]
    rw [if_neg (b64Char_ne_pad _ (by omega : b % 16 * 4 < 64))]
    rw [b64Val_b64Char _ (by omega : a / 4 < 64),
      b64Val_b64Char _ (by omega : a % 4 * 16 + b / 16 < 64),
      b64Val_b64Char _ (by omega : b % 16 * 4 < 64)]
    simp only [List.cons.injEq, and_true]
    constructor <;> omega
  | case4 a b c rest ih =>
    have ha : a < 256 := hx a (by simp)
    have hb : b < 256 := hx b (by simp)
    have hc : c < 256 := hx c (by simp)
    have hrest : ∀ d ∈ rest, d < 256 := fun d hd => hx d (by simp [hd])
    rw [encodeB64]
    rw [decodeB64]
    rw [if_neg (b64Char_ne_pad _ (by omega : b % 16 * 4 + c / 64 < 64)),
      if_neg (b64Char_ne_pad _ (by omega : c % 64 < 64))]
    rw [b64Val_b64Char _ (by omega : a / 4 < 64),
      b64Val_b64Char _ (by omega : a % 4 * 16 + b / 16 < 64),
      b64Val_b64Char _ (by omega : b % 16 * 4 + c / 64 < 64),
      b64Val_b64Char _ (by omega : c % 64 < 64), ih hrest]
    simp only [List.cons.injEq, and_true]
    refine ⟨?_, ?_, ?_⟩ <;> omega

/-- Concatenating the 512-character chunks restores the decoded string,
as a byte sequence. -/
theorem blobChunks_flatten (l : List Char) :
    (blobChunks l).flatten = l.map Char.toNat := by
  induction l using blobChunks.induct with
  | case1 => rw [blobChunks]; simp
  | case2 l h ih =>
    rw [blobChunks]
    simp only [h, dite_false, List.flatten_cons, ih]
    rw [← List.map_append, List.take_append_drop]

/-- Mapping a byte sequence through characters and back is the identity. -/
theorem map_toNat_ofNat (x : List Nat) (hx : ∀ b ∈ x, b < 256) :
    (x.map Char.ofNat).map Char.toNat = x := by
  induction x with
  | nil => rfl
  | cons a l ih =>
    have ha : a < 256 := hx a (by simp)
    have hl : ∀ b ∈ l, b < 256 := fun b hb => hx b (by simp [hb])
    simp only [List.map_cons, char_toNat_ofNat a ha, ih hl]

/-- Evaluate mathFloor from two rational bounds. -/
theorem mathFloor_eq (q : ℚ) (z : ℤ) (h1 : (z : ℚ) ≤ q) (h2 : q < (z : ℚ) + 1) :
    mathFloor q = z := by
  unfold mathFloor
  exact Int.floor_eq_iff.mpr ⟨h1, h2⟩

/-- On nonnegative arguments JS truncation agrees with the floor. -/
theorem ratTrunc_nonneg (q : ℚ) (h : 0 ≤ q) : ratTrunc q = ⌊q⌋ := by
  unfold ratTrunc
  rw [if_neg (not_lt.mpr h)]

/-- Evaluate the JS remainder of a nonnegative division from floor bounds
on the quotient. -/
theorem jsRem_eval (a b : ℚ) (z : ℤ) (h0 : 0 ≤ a / b) (h1 : (z : ℚ) ≤ a / b)
    (h2 : a / b < (z : ℚ) + 1) : jsRem a b = a - b * z := by
  have hz : ⌊a / b⌋ = z := Int.floor_eq_iff.mpr ⟨h1, h2⟩
  unfold jsRem
  rw [ratTrunc_nonneg _ h0, hz]

/- Claim theorems. -/

/-- C4: ByteChunkCodec.decode (AudioUtils.base64ToBlob, which decodes via
atob, slices the decoded string into fixed 512-character chunks, maps every
character to its code point and concatenates the per-slice arrays in order)
is a left inverse of base64 encoding: for every byte sequence x,
decode (encode x) = x, in particular for lengths at and around multiples of
the 512 chunk size, which the universal quantifier covers. -/
theorem c4_base64ToBlob_left_inverse (x : List Nat) (hx : ∀ b ∈ x, b < 256) :
    base64ToBlob (encodeB64 x) = x := by
  unfold base64ToBlob atobJS
  rw [blobChunks_flatten, decodeB64_encodeB64 x hx]
  exact map_toNat_ofNat x hx

/-- Witness for C4 at the concrete byte sequence 72, 101, 108, 108, 111, 0,
255, 10. -/
theorem c4_witness :
    (∀ b ∈ [72, 101, 108, 108, 111, 0, 255, 10], b < 256) ∧
      base64ToBlob (encodeB64 [72, 101, 108, 108, 111, 0, 255, 10]) =
        [72, 101, 108, 108, 111, 0, 255, 10] :=
  ⟨by decide, c4_base64ToBlob_left_inverse _ (by decide)⟩

/-- C9: AudioUtils.formatTime returns 0:00 on the not-a-number input, and on
every numeric input returns the floored minutes, a colon, and the floored
remainder seconds zero-padded to width 2 with the minutes unpadded; in
particular 75 renders as 1:15, 600 as 10:00, 59 as 0:59 and 0 as 0:00. -/
theorem c9_formatTime (q : ℚ) :
    formatTime JsNum.nan = "0:00" ∧
    formatTime (JsNum.num q) =
      toString (mathFloor (q / 60)) ++ ":" ++
        padStart (toString (mathFloor (jsRem q 60))) 2 '0' ∧
    formatTime (JsNum.num 75) = "1:15" ∧
    formatTime (JsNum.num 600) = "10:00" ∧
    formatTime (JsNum.num 59) = "0:59" ∧
    formatTime (JsNum.num 0) = "0:00" := by
  refine ⟨rfl, rfl, ?_, ?_, ?_, ?_⟩
  · have m1 : mathFloor ((75 : ℚ) / 60) = 1 := mathFloor_eq _ 1 (by norm_num) (by norm_num)
    have r1 : jsRem (75 : ℚ) 60 = 15 := by
      rw [jsRem_eval 75 60 1 (by norm_num) (by norm_num) (by norm_num)]; norm_num
    have m2 : mathFloor (15 : ℚ) = 15 := mathFloor_eq _ 15 (by norm_num) (by norm_num)
    simp only [formatTime, m1, r1, m2]
    decide
  · have m1 : mathFloor ((600 : ℚ) / 60) = 10 := mathFloor_eq _ 10 (by norm_num) (by norm_num)
    have r1 : jsRem (600 : ℚ) 60 = 0 := by
      rw [jsRem_eval 600 60 10 (by norm_num) (by norm_num) (by norm_num)]; norm_num
    have m2 : mathFloor (0 : ℚ) = 0 := mathFloor_eq _ 0 (by norm_num) (by norm_num)
    simp only [formatTime, m1, r1, m2]
    decide
  · have m1 : mathFloor ((59 : ℚ) / 60) = 0 := mathFloor_eq _ 0 (by norm_num) (by norm_num)
    have r1 : jsRem (59 : ℚ) 60 = 59 := by
      rw [jsRem_eval 59 60 0 (by norm_num) (by norm_num) (by norm_num)]; norm_num
    have m2 : mathFloor (59 : ℚ) = 59 := mathFloor_eq _ 59 (by norm_num) (by norm_num)
    simp only [formatTime, m1, r1, m2]
    decide
  · have m1 : mathFloor ((0 : ℚ) / 60) = 0 := mathFloor_eq _ 0 (by norm_num) (by norm_num)
    have r1 : jsRem (0 : ℚ) 60 = 0 := by
      rw [jsRem_eval 0 60 0 (by norm_num) (by norm_num) (by norm_num)]; norm_num
    have m2 : mathFloor (0 : ℚ) = 0 := mathFloor_eq _ 0 (by norm_num) (by norm_num)
    simp only [formatTime, m1, r1, m2]
    decide

/-- C8: the error classifier is a total, pure, case-sensitive,
first-match-wins substring test in a fixed order: Prompt must be length
wins over budget exceeded, and every input falls into exactly one of the
three titles; witnessed on representative inputs including one containing
both substrings. -/
theorem c8_classify_first_match (s : String) :
    classify s =
      (if jsIncludes s "Prompt must be length" then "Prompt Too Long"
       else if jsIncludes s "budget exceeded" then "Budget Exceeded"
       else "Error") ∧
    (classify s = "Prompt Too Long" ∨ classify s = "Budget Exceeded" ∨
      classify s = "Error") ∧
    classify "Prompt must be length <= 100" = "Prompt Too Long" ∧
    classify "budget exceeded for session" = "Budget Exceeded" ∧
    classify "unknown failure" = "Error" ∧
    classify "Prompt must be length 10 and budget exceeded" = "Prompt Too Long" := by
  refine ⟨rfl, ?_, by decide, by decide, by decide, by decide⟩
  unfold classify
  split
  · exact Or.inl rfl
  · split
    · exact Or.inr (Or.inl rfl)
    · exact Or.inr (Or.inr rfl)

/-- C10: in the chips container of a bot message with cost_info attached, a
cost chip is present exactly when request_cost is a truthy number (present
and nonzero); with request_cost equal to 0 or absent no cost chip is
rendered, while an agent-flow chip is still rendered exactly when
agent_flow is present. -/
theorem c10_cost_chip_truthy (ci : CostInfo) (af : Option AgentFlow) :
    ((createChipsContainer (some ci) af).any isCostChip = jsTruthyNum ci.request_cost) ∧
    ((createChipsContainer (some ci) af).any isAgentFlowChip = af.isSome) ∧
    ((createChipsContainer (some { request_cost := some 0 }) af).any isCostChip = false) ∧
    ((createChipsContainer (some { request_cost := none }) af).any isCostChip = false) ∧
    ((createChipsContainer (some { request_cost := some 0 }) af).any isAgentFlowChip
      = af.isSome) := by
  refine ⟨?_, ?_, ?_, ?_, ?_⟩ <;>
    rcases ci with ⟨rc, tc, rb⟩ <;>
    cases rc with
    | none => cases af <;>
        simp [createChipsContainer, jsTruthyNum, isCostChip, isAgentFlowChip]
    | some c =>
        cases af <;> cases hc : c != 0 <;>
          simp [createChipsContainer, jsTruthyNum, isCostChip, isAgentFlowChip, hc]

/-- C5: for a seek with click fraction relativeX in the unit interval, a
numeric duration yields currentTime equal to relativeX times the duration,
and a NaN duration leaves currentTime unchanged (the handler has no guard:
the product is NaN and the platform currentTime setter rejects non-finite
values, so no seek occurs). -/
theorem c5_seek (d relativeX currentTime : ℚ)
    (h0 : 0 ≤ relativeX) (h1 : relativeX ≤ 1) :
    (seekClick (JsNum.num d) relativeX currentTime).1 = relativeX * d ∧
    (seekClick JsNum.nan relativeX currentTime).1 = currentTime :=
  ⟨rfl, rfl⟩

/-- Witness for C5 at relativeX one half, duration 200, currentTime 3. -/
theorem c5_witness :
    (0 : ℚ) ≤ 1 / 2 ∧ (1 : ℚ) / 2 ≤ 1 ∧
    (seekClick (JsNum.num 200) (1 / 2) 3).1 = 1 / 2 * 200 ∧
    (seekClick JsNum.nan (1 / 2) 3).1 = 3 :=
  ⟨by norm_num, by norm_num,
    (c5_seek 200 (1 / 2) 3 (by norm_num) (by norm_num)).1,
    (c5_seek 200 (1 / 2) 3 (by norm_num) (by norm_num)).2⟩

/-- C3 (recording the code bug): with two audio widgets, the first click
starts widget 0; clicking play on widget 1 while widget 0 is the active
widget pauses widget 0 and resets its position to 0 as specified, but the
handler then throws (second component true) because _resetCurrentAudio
reads parentElement of an audio element that createAudioPlayer never
attached to any parent, so widget 1 never transitions to Playing, the
active-widget reference still points to widget 0, and widget 0 keeps its
stale Pause button. -/
theorem c3_switch_throws_widget_never_plays :
    (clickPlay (initAudioSys 2) 0).2 = false ∧
    ((clickPlay (initAudioSys 2) 0).1.widgets 0).paused = false ∧
    (clickPlay (clickPlay (initAudioSys 2) 0).1 1).2 = true ∧
    ((clickPlay (clickPlay (initAudioSys 2) 0).1 1).1.widgets 0).paused = true ∧
    ((clickPlay (clickPlay (initAudioSys 2) 0).1 1).1.widgets 0).currentTime = 0 ∧
    ((clickPlay (clickPlay (initAudioSys 2) 0).1 1).1.widgets 1).paused = true ∧
    (clickPlay (clickPlay (initAudioSys 2) 0).1 1).1.currentAudio = some 0 ∧
    ((clickPlay (clickPlay (initAudioSys 2) 0).1 1).1.widgets 0).buttonPlaying = true := by
  decide

/-- On an Error:-prefixed message the dispatcher appends exactly the error
card (title from the classifier, body the trimmed tail after dropping
7 characters) and nothing else, while a present cost_info still updates the
ledger beforehand. -/
theorem dispatch_error_log (st : DispState) (data : Frame) (m : String)
    (hm : data.message = some m) (he : jsStartsWith m "Error:" = true) :
    (handleWebSocketMessage st data).log =
      st.log ++ [Node.errorCard (classify (jsTrim (jsSubstringFrom m 7)))
        (jsTrim (jsSubstringFrom m 7))] ∧
    (handleWebSocketMessage st data).ledger =
      (match data.cost_info with
       | some ci => updateCostDisplay st.ledger ci
       | none => st.ledger) := by
  cases hci : data.cost_info <;>
    simp [handleWebSocketMessage, hm, he, hci, handleErrorMessage, appendNode]

/-- The frame of the C1 counterexample: an Error:-prefixed message together
with image, audio and research payloads. -/
def c1Frame : Frame :=
  { message := some "Error: x", base64_image := some "IMG",
    base64_audio := some "AUD", research_result := some "RES" }

/-- C1 counterexample: on a frame carrying an Error:-prefixed message
together with base64_image, base64_audio and research_result, only the
error card is appended; the image, audio and research widgets the claim
promises are absent, because handleWebSocketMessage returns right after
handleErrorMessage. -/
theorem c1_counterexample :
    c1Frame.base64_image = some "IMG" ∧
    c1Frame.base64_audio = some "AUD" ∧
    c1Frame.research_result = some "RES" ∧
    (handleWebSocketMessage initDispState c1Frame).log = [Node.errorCard "Error" "x"] ∧
    Node.imageWidget "IMG" ∉ (handleWebSocketMessage initDispState c1Frame).log ∧
    Node.audioWidget "AUD" ∉ (handleWebSocketMessage initDispState c1Frame).log ∧
    Node.researchBlock "RES" ∉ (handleWebSocketMessage initDispState c1Frame).log := by
  decide

/-- C1 (amended): when the message is present and starts with Error:, the
dispatcher renders the error card and stops processing the whole remainder
of the frame: nothing is appended for base64_image, base64_audio or
research_result; only cost_info, handled before the error check, is still
processed into the ledger. -/
theorem c1_error_stops_frame (st : DispState) (data : Frame) (m : String)
    (hm : data.message = some m) (he : jsStartsWith m "Error:" = true) :
    (handleWebSocketMessage st data).log =
      st.log ++ [Node.errorCard (classify (jsTrim (jsSubstringFrom m 7)))
        (jsTrim (jsSubstringFrom m 7))] ∧
    (handleWebSocketMessage st data).ledger =
      (match data.cost_info with
       | some ci => updateCostDisplay st.ledger ci
       | none => st.ledger) :=
  dispatch_error_log st data m hm he

/-- Witness for C1 on the frame with message Error: oops. -/
theorem c1_witness :
    ({ message := some "Error: oops" } : Frame).message = some "Error: oops" ∧
    jsStartsWith "Error: oops" "Error:" = true ∧
    (handleWebSocketMessage initDispState { message := some "Error: oops" }).log =
      initDispState.log ++ [Node.errorCard (classify (jsTrim (jsSubstringFrom "Error: oops" 7)))
        (jsTrim (jsSubstringFrom "Error: oops" 7))] :=
  ⟨rfl, by decide,
    (c1_error_stops_frame initDispState { message := some "Error: oops" } "Error: oops"
      rfl (by decide)).1⟩

/-- C2 counterexample: the frame whose message is Error:budget exceeded
(no space after the colon) yields a card with body udget exceeded and the
generic title Error, not the claimed body budget exceeded with title
Budget Exceeded, because handleErrorMessage drops 7 characters though the
Error: prefix has 6. -/
theorem c2_counterexample :
    jsStartsWith "Error:budget exceeded" "Error:" = true ∧
    (handleWebSocketMessage initDispState { message := some "Error:budget exceeded" }).log =
      [Node.errorCard "Error" "udget exceeded"] ∧
    Node.errorCard "Budget Exceeded" "budget exceeded" ∉
      (handleWebSocketMessage initDispState { message := some "Error:budget exceeded" }).log := by
  decide

/-- C2 (amended): on every Error:-prefixed message exactly one error card
and no bot text message is appended; the card body is the message with its
first 7 characters dropped and surrounding whitespace trimmed (equal to
prefix-stripping plus trimming whenever a whitespace character follows the
prefix), the title is the classifier result on that body; in particular the
frame with message Error: Prompt must be length 10 yields the card titled
Prompt Too Long with body Prompt must be length 10. -/
theorem c2_error_card_content (st : DispState) (data : Frame) (m : String)
    (hm : data.message = some m) (he : jsStartsWith m "Error:" = true) :
    ((handleWebSocketMessage st data).log =
      st.log ++ [Node.errorCard (classify (jsTrim (jsSubstringFrom m 7)))
        (jsTrim (jsSubstringFrom m 7))]) ∧
    (∀ t chips, Node.botMessage t chips ∈ (handleWebSocketMessage st data).log →
      Node.botMessage t chips ∈ st.log) ∧
    (handleWebSocketMessage initDispState
        { message := some "Error: Prompt must be length 10" }).log =
      [Node.errorCard "Prompt Too Long" "Prompt must be length 10"] := by
  have hlog := (dispatch_error_log st data m hm he).1
  refine ⟨hlog, ?_, by decide⟩
  intro t chips hmem
  rw [hlog] at hmem
  rcases List.mem_append.mp hmem with h | h
  · exact h
  · simp at h

/-- Witness for C2 on the frame with message Error: budget exceeded. -/
theorem c2_witness :
    ({ message := some "Error: budget exceeded" } : Frame).message =
      some "Error: budget exceeded" ∧
    jsStartsWith "Error: budget exceeded" "Error:" = true ∧
    (handleWebSocketMessage initDispState { message := some "Error: budget exceeded" }).log =
      initDispState.log ++ [Node.errorCard (classify (jsTrim
        (jsSubstringFrom "Error: budget exceeded" 7)))
        (jsTrim (jsSubstringFrom "Error: budget exceeded" 7))] :=
  ⟨rfl, by decide,
    (c2_error_card_content initDispState { message := some "Error: budget exceeded" }
      "Error: budget exceeded" rfl (by decide)).1⟩

/-- Evaluate toFixed on a nonnegative argument from rational bounds on the
scaled and half-shifted value. -/
theorem toFixed_eval (x : ℚ) (d : Nat) (n : ℤ) (hx : ¬ x < 0)
    (h1 : (n : ℚ) ≤ x * (10 : ℚ) ^ d + 1 / 2)
    (h2 : x * (10 : ℚ) ^ d + 1 / 2 < (n : ℚ) + 1) :
    toFixed x d = toFixedNat n.toNat d := by
  unfold toFixed
  rw [if_neg hx, Int.floor_eq_iff.mpr ⟨h1, h2⟩]

/-- A ledger whose remaining-budget display still shows a stale 9.00. -/
def ledgerStale : Ledger :=
  { totalCostText := "0.000", remainingBudgetText := "9.00", costWarning := false }

/-- C6 counterexample: processing the same cost_info that carries only
total_cost from two different prior ledgers leaves the two remaining-budget
displays different (each keeps its prior value), so the ledger is not
overwritten wholesale and does not reflect only the cost_info of that frame. -/
theorem c6_counterexample :
    ({ total_cost := some 1 } : CostInfo).remaining_budget = none ∧
    (updateCostDisplay initLedger { total_cost := some 1 }).remainingBudgetText = "25.00" ∧
    (updateCostDisplay ledgerStale { total_cost := some 1 }).remainingBudgetText = "9.00" ∧
    updateCostDisplay initLedger { total_cost := some 1 } ≠
      updateCostDisplay ledgerStale { total_cost := some 1 } := by
  refine ⟨rfl, ?_, ?_, ?_⟩
  · simp [updateCostDisplay, initLedger]
  · simp [updateCostDisplay, ledgerStale]
  · intro h
    have h2 := congrArg Ledger.remainingBudgetText h
    simp [updateCostDisplay, initLedger, ledgerStale] at h2

/-- C6 (amended): on each cost_info-bearing frame the two ledger displays
are updated independently and partially: a display is overwritten exactly
when the corresponding field is numerically present in the frame
cost_info, and keeps its previous value (a partial merge, not a wholesale
overwrite) when the field is absent; the warning presentation is recomputed
exactly when remaining_budget is present. -/
theorem c6_partial_update (ledger : Ledger) (ci : CostInfo) :
    (ci.total_cost = none →
      (updateCostDisplay ledger ci).totalCostText = ledger.totalCostText) ∧
    (∀ t, ci.total_cost = some t →
      (updateCostDisplay ledger ci).totalCostText = toFixed t 3) ∧
    (ci.remaining_budget = none →
      (updateCostDisplay ledger ci).remainingBudgetText = ledger.remainingBudgetText ∧
      (updateCostDisplay ledger ci).costWarning = ledger.costWarning) ∧
    (∀ r, ci.remaining_budget = some r →
      (updateCostDisplay ledger ci).remainingBudgetText = toFixed r 2 ∧
      (updateCostDisplay ledger ci).costWarning =
        decide (r < ChatConstants.LOW_BUDGET_THRESHOLD)) := by
  rcases ci with ⟨rc, tc, rb⟩
  cases tc <;> cases rb <;> simp [updateCostDisplay]

/-- Witness for C6 at a cost_info carrying only total_cost 1, from the
initial ledger. -/
theorem c6_witness :
    (updateCostDisplay initLedger { total_cost := some 1 }).totalCostText = "1.000" ∧
    (updateCostDisplay initLedger { total_cost := some 1 }).remainingBudgetText = "25.00" := by
  have h1 := (c6_partial_update initLedger { total_cost := some 1 }).2.1 1 rfl
  have h2 := ((c6_partial_update initLedger { total_cost := some 1 }).2.2.1 rfl).1
  rw [h1, h2]
  constructor
  · rw [toFixed_eval 1 3 1000 (by norm_num) (by norm_num) (by norm_num)]
    decide
  · rfl

/-- C7: after processing a cost_info whose remaining_budget is numeric, the
warning presentation is present on the remaining-budget field exactly when
remaining_budget is below 5.00; and the frame whose cost_info is total_cost
3.5 with remaining_budget 4.0 makes the ledger show 3.500 and 4.00 with the
warning present. -/
theorem c7_warning_iff (ledger : Ledger) (ci : CostInfo) (r : ℚ)
    (hr : ci.remaining_budget = some r) :
    ((updateCostDisplay ledger ci).costWarning = true ↔ r < 5) ∧
    (handleWebSocketMessage initDispState
        { cost_info := some { total_cost := some (7 / 2), remaining_budget := some 4 } }).ledger =
      { totalCostText := "3.500", remainingBudgetText := "4.00", costWarning := true } := by
  constructor
  · rcases ci with ⟨rc, tc, rb⟩
    cases tc <;>
      simp_all [updateCostDisplay, ChatConstants.LOW_BUDGET_THRESHOLD]
  · have e1 : toFixed ((7 : ℚ) / 2) 3 = "3.500" := by
      rw [toFixed_eval (7 / 2) 3 3500 (by norm_num) (by norm_num) (by norm_num)]
      decide
    have e2 : toFixed (4 : ℚ) 2 = "4.00" := by
      rw [toFixed_eval 4 2 400 (by norm_num) (by norm_num) (by norm_num)]
      decide
    have e3 : decide ((4 : ℚ) < ChatConstants.LOW_BUDGET_THRESHOLD) = true := by
      simp [ChatConstants.LOW_BUDGET_THRESHOLD]
      norm_num
    simp [handleWebSocketMessage, updateCostDisplay, initDispState, initLedger, e1, e2, e3]

/-- Witness for C7 at a cost_info whose remaining_budget is 4, from the
initial ledger. -/
theorem c7_witness :
    ({ remaining_budget := some 4 } : CostInfo).remaining_budget = some (4 : ℚ) ∧
    ((updateCostDisplay initLedger { remaining_budget := some 4 }).costWarning = true ↔
      (4 : ℚ) < 5) :=
  ⟨rfl, (c7_warning_iff initLedger { remaining_budget := some 4 } 4 rfl).1⟩

end ChatClient
